import Mathlib

/-!
Shallow embedding of the Weather-Or-Not activity suitability engine
(`src/web/lib/activityScore.ts`, first/canonical variant) and of the
location classifier (`src/web/lib/locationMetadata.ts`), together with
theorems settling the specification claims.

Conventions of the embedding:
* JavaScript numbers are modelled as rationals (`ℚ`); all thresholds in the
  source are exact decimal constants, so no floating-point rounding is
  observable on the inputs considered here.
* Optional (`field?:`) values are modelled as `Option`.
* `Math.round` rounds half away from zero for positive arguments; on the
  values produced here (which are all nonnegative before rounding) it agrees
  with `fun q => ⌊q + 1/2⌋`, which is how JavaScript `Math.round` is defined
  for all inputs.
* `Array.prototype.includes` / `String.prototype.includes` /
  `String.prototype.toLowerCase` are modelled by executable Lean functions
  on `List`/`String` below.
-/

/-- Model of JavaScript `Math.round` (round half toward positive infinity). -/
def jsRound (q : ℚ) : ℤ := ⌊q + 1/2⌋

/-- Model of JavaScript `String.prototype.toLowerCase` (ASCII case folding;
all strings compared by the source are ASCII). -/
def toLowerStr (s : String) : String := ⟨s.data.map Char.toLower⟩

/-- Model of JavaScript `String.prototype.toUpperCase`. -/
def toUpperStr (s : String) : String := ⟨s.data.map Char.toUpper⟩

/-- Model of JavaScript `String.prototype.includes`: `strIncludes s sub` is
true when `sub` occurs as a contiguous substring of `s`. -/
def strIncludes (s sub : String) : Bool :=
  (List.range (s.data.length + 1)).any (fun i => sub.data.isPrefixOf (s.data.drop i))

/-- Model of JavaScript string truthiness: a string field is truthy when it is
present and nonempty. -/
def jsTruthyStr (o : Option String) : Bool :=
  match o with
  | some s => !(s == "")
  | none => false

/-- First-occurrence deduplication, the order/selection behaviour of
JavaScript `Array.from(new Set(xs))`: keeps the first occurrence of each
element, in encounter order. `seen` accumulates elements already emitted. -/
def firstDedupAux (seen : List String) : List String → List String
  | [] => []
  | x :: xs =>
    if seen.contains x then firstDedupAux seen xs
    else x :: firstDedupAux (x :: seen) xs

/-- Model of `Array.from(new Set(reasons))`. -/
def firstDedup (l : List String) : List String := firstDedupAux [] l

/-- Source `dedupeReasons` (activityScore.ts, lines 491-493):
`Array.from(new Set(reasons)).slice(0, limit)`. -/
def dedupeReasons (reasons : List String) (limit : ℕ) : List String :=
  (firstDedup reasons).take limit

/-- Source `Activity` union type. -/
inductive Activity
  | surfing
  | skiing
  | snowboarding
  | hiking
deriving DecidableEq

/-- Source `LocationMetadata` type (activityScore.ts, lines 17-30). -/
structure LocationMetadata where
  name : String := ""
  countryCode : Option String := none
  osmCategory : Option String := none
  osmType : Option String := none
  isCoastal : Bool := false
  hasLargeWaterNearby : Bool := false
  isPark : Bool := false
  isUrban : Bool := false
  snowFriendly : Option Bool := none
  surfFriendly : Option Bool := none
deriving DecidableEq

/-- Source `WeatherSnapshot` type (activityScore.ts, lines 32-54). -/
structure WeatherSnapshot where
  tempC : ℚ
  apparentTempC : Option ℚ := none
  windKph : ℚ
  gustKph : Option ℚ := none
  precipMm : ℚ
  precipProb : Option ℚ := none
  weatherCode : Option ℚ := none
  snowfallCm : Option ℚ := none
  snowDepthCm : Option ℚ := none
  visibilityM : Option ℚ := none
  soilMoistureTopLayer : Option ℚ := none
  waveHeightM : Option ℚ := none
  swellPeriodS : Option ℚ := none
  windDirDeg : Option ℚ := none
deriving DecidableEq

/-- Source `SuitabilityLabel` union type. -/
inductive SuitabilityLabel
  | TERRIBLE
  | OK
  | GREAT
deriving DecidableEq

/-- Source `SuitabilityResult` type. The public score is an integer. -/
structure SuitabilityResult where
  score : ℤ
  label : SuitabilityLabel
  reasons : List String
deriving DecidableEq

/-- Source `getLabel` (lines 94-98). -/
def getLabel (score : ℤ) : SuitabilityLabel :=
  if score ≤ 30 then .TERRIBLE
  else if score ≤ 70 then .OK
  else .GREAT

/-!  Surfing (source lines 104-254). -/

/-- Source `hasMarineData` (lines 114-118): both marine fields present, with
`waveHeightM > 0.3` and `swellPeriodS ≥ 5`. -/
def hasMarineData (w : WeatherSnapshot) : Bool :=
  match w.waveHeightM, w.swellPeriodS with
  | some h, some p => decide (h > 3/10) && decide (p ≥ 5)
  | _, _ => false

/-- Source `isOceanic` (line 122). -/
def isOceanic (loc : LocationMetadata) (w : WeatherSnapshot) : Bool :=
  (loc.isCoastal && loc.hasLargeWaterNearby) || hasMarineData w

/-- Source `isSurfable` (line 125): `loc.surfFriendly === true || isOceanic`. -/
def isSurfable (loc : LocationMetadata) (w : WeatherSnapshot) : Bool :=
  (loc.surfFriendly == some true) || isOceanic loc w

/-- The fixed gatekeeper reason of `scoreSurfing` (line 131). -/
def surfGateReason : String :=
  "This spot is not near an ocean or large body of water, so surfing is not realistic here."

/-- The fixed infeasibility result of `scoreSurfing` (lines 127-133). -/
def surfInfeasibleResult : SuitabilityResult :=
  { score := 0, label := .TERRIBLE, reasons := [surfGateReason] }

/-- Wave-height cliff condition (line 142): `w.waveHeightM && w.waveHeightM > 5`.
JavaScript truthiness of `0` cannot matter because `0 > 5` is false. -/
def surfWaveCliff (w : WeatherSnapshot) : Bool :=
  match w.waveHeightM with
  | some h => decide (h > 5)
  | none => false

/-- Wave-height curve block (lines 151-172), returning the score delta and the
reasons it pushes. -/
def surfWaveBlock (w : WeatherSnapshot) : ℚ × List String :=
  match w.waveHeightM with
  | some h =>
    if h < 3/10 then (-5, ["Waves are almost flat; not suitable for surfing."])
    else if h < 6/10 then (-3, ["Small waves; marginal surfing conditions."])
    else if h ≥ 6/10 ∧ h ≤ 5/2 then (0, ["Wave height is in a good range for surfing."])
    else if h > 4 then (-3, ["Very large waves; challenging/hazardous conditions."])
    else if h > 5/2 then (-1, ["Large waves; advanced conditions."])
    else (0, [])
  | none => (-4, ["Wave data unavailable; conditions unknown."])

/-- Swell-period curve block (lines 175-192). When `swellPeriodS` is absent
but `waveHeightM` is present, the source subtracts `1.5` without pushing a
reason. -/
def surfSwellBlock (w : WeatherSnapshot) : ℚ × List String :=
  match w.swellPeriodS with
  | some p =>
    if p < 6 then (-3, ["Short swell period; weak, choppy waves."])
    else if p < 9 then (-1, ["Moderate swell period."])
    else if p ≥ 12 then (1, ["Long-period groundswell; excellent wave quality."])
    else if p ≥ 9 then (1/2, ["Good swell period; organized waves."])
    else (0, [])
  | none =>
    match w.waveHeightM with
    | some _ => (-3/2, [])
    | none => (0, [])

/-- Wind curve block (lines 195-207). -/
def surfWindBlock (w : WeatherSnapshot) : ℚ × List String :=
  if w.windKph < 5 then (1/2, ["Light winds; glassy conditions."])
  else if w.windKph ≥ 5 ∧ w.windKph ≤ 30 then (-1/2, [])
  else if w.windKph > 30 ∧ w.windKph ≤ 50 then (-2, ["Strong winds; choppy conditions."])
  else if w.windKph > 50 then (-3, ["Very strong winds; poor surf quality."])
  else (0, [])

/-- Temperature curve block (lines 214-241). -/
def surfTempBlock (w : WeatherSnapshot) : ℚ × List String :=
  if w.tempC < 5 then (-4, ["Extreme cold; dangerous without specialized gear."])
  else if w.tempC ≥ 5 ∧ w.tempC < 10 then (-5/2, ["Very cold; thick wetsuit required."])
  else if w.tempC ≥ 10 ∧ w.tempC < 18 then (-1, ["Cool water; wetsuit recommended."])
  else if w.tempC ≥ 18 ∧ w.tempC ≤ 28 then (0, ["Comfortable water temperature."])
  else if w.tempC > 28 ∧ w.tempC ≤ 32 then (-1/2, ["Warm water; stay hydrated."])
  else if w.tempC > 32 ∧ w.tempC ≤ 35 then (-3/2, ["Very warm water; less comfortable."])
  else if w.tempC > 35 then (-3, ["Extreme heat; unsafe conditions."])
  else (0, [])

/-- Source `finalizeSurfScore` (lines 246-254). -/
def finalizeSurfScore (score10 : ℚ) (reasons : List String) : SuitabilityResult :=
  let s := max 0 (min 10 score10)
  { score := jsRound (s * 10)
    label := getLabel (jsRound (s * 10))
    reasons := dedupeReasons reasons 3 }

/-- Source `scoreSurfing` (lines 104-244). -/
def scoreSurfing (loc : LocationMetadata) (w : WeatherSnapshot) : SuitabilityResult :=
  if !isSurfable loc w then surfInfeasibleResult
  else if w.windKph > 70 then
    finalizeSurfScore (1/2) ["Very strong winds – conditions are hazardous."]
  else if surfWaveCliff w then
    finalizeSurfScore 1 ["Extreme wave height – conditions unsafe for most surfers."]
  else
    let wave := surfWaveBlock w
    let swell := surfSwellBlock w
    let wind := surfWindBlock w
    let temp := surfTempBlock w
    finalizeSurfScore (10 + wave.1 + swell.1 + wind.1 + temp.1)
      (wave.2 ++ swell.2 ++ wind.2 ++ temp.2)

/-- The reasons accumulated by `scoreSurfing` before deduplication, per path. -/
def surfRawReasons (loc : LocationMetadata) (w : WeatherSnapshot) : List String :=
  if !isSurfable loc w then [surfGateReason]
  else if w.windKph > 70 then ["Very strong winds – conditions are hazardous."]
  else if surfWaveCliff w then ["Extreme wave height – conditions unsafe for most surfers."]
  else
    (surfWaveBlock w).2 ++ (surfSwellBlock w).2 ++ (surfWindBlock w).2 ++ (surfTempBlock w).2

/-!  Skiing / snowboarding (source lines 260-362). -/

/-- Gatekeeper reason for non-resort locations (line 269). -/
def skiResortReason : String :=
  "This spot is not marked as a ski resort; conditions may be more variable."

/-- Gatekeeper of `scoreSkiingSnowboarding` (lines 263-270): yields the
maximum achievable internal score and any gate reason.  The cap of `3.0`
applies whenever `loc.snowFriendly !== true` (absent or false). -/
def skiGate (loc : LocationMetadata) : ℚ × List String :=
  if loc.snowFriendly ≠ some true then (3, [skiResortReason])
  else (10, [])

/-- Rain-on-snow cliff condition (lines 275-277). -/
def isRainOnSnow (w : WeatherSnapshot) : Bool :=
  decide (w.tempC > 0) && decide (w.precipMm > 1/2) &&
    (match w.weatherCode with
     | some c => decide (c ≥ 51) && decide (c ≤ 67)
     | none => false)

/-- Extreme-gust cliff condition (line 286). -/
def skiGustCliff (w : WeatherSnapshot) : Bool :=
  match w.gustKph with
  | some g => decide (g > 70)
  | none => false

/-- Temperature curve block (lines 295-311). -/
def skiTempBlock (w : WeatherSnapshot) : ℚ × List String :=
  if w.tempC ≥ -10 ∧ w.tempC ≤ -2 then (0, ["Temperature is ideal for skiing/snowboarding."])
  else if (w.tempC ≥ -20 ∧ w.tempC < -10) ∨ (w.tempC > -2 ∧ w.tempC ≤ 2) then
    (-3/2, if w.tempC < -10 then ["Very cold; dress warmly."]
           else ["Mild temperatures; snow may be soft."])
  else if w.tempC > 2 then (-4, ["Warm temperatures; slushy conditions likely."])
  else if w.tempC < -20 then (-5/2, ["Extremely cold; comfort risk."])
  else (0, [])

/-- Fresh-snowfall curve block (lines 314-322). -/
def skiSnowfallBlock (w : WeatherSnapshot) : ℚ × List String :=
  match w.snowfallCm with
  | some s =>
    if s ≥ 15 then (2, ["Powder day! Fresh snow expected."])
    else if s ≥ 5 then (1, ["Fresh snow; good surface conditions."])
    else (0, [])
  | none => (0, [])

/-- Base-depth curve block (lines 324-327). -/
def skiBaseBlock (w : WeatherSnapshot) : ℚ × List String :=
  match w.snowDepthCm with
  | some d =>
    if d < 50 ∧ (w.snowfallCm = none ∨ w.snowfallCm = some 0) then
      (-2, ["Thin base; rocks and obstacles may be exposed."])
    else (0, [])
  | none => (0, [])

/-- Wind curve block (lines 330-336). -/
def skiWindBlock (w : WeatherSnapshot) : ℚ × List String :=
  match w.gustKph with
  | some g =>
    if g > 40 then (-2, ["Strong gusts; lifts may be affected."])
    else if w.windKph > 40 then (-3/2, ["Strong winds; cold and uncomfortable."])
    else (0, [])
  | none =>
    if w.windKph > 40 then (-3/2, ["Strong winds; cold and uncomfortable."])
    else (0, [])

/-- Visibility curve block (lines 339-349). -/
def skiVisBlock (w : WeatherSnapshot) : ℚ × List String :=
  match w.visibilityM with
  | some v =>
    if v < 500 then (-4, ["Whiteout conditions; very poor visibility."])
    else if v < 2000 then (-3/2, ["Limited visibility."])
    else (0, ["Good visibility."])
  | none => (0, [])

/-- Source `finalizeSkiScore` (lines 354-362). -/
def finalizeSkiScore (score10 : ℚ) (reasons : List String) (maxScore : ℚ) : SuitabilityResult :=
  let s := max 0 (min maxScore score10)
  { score := jsRound (s * 10)
    label := getLabel (jsRound (s * 10))
    reasons := dedupeReasons reasons 3 }

/-- Source `scoreSkiingSnowboarding` (lines 260-352). -/
def scoreSkiingSnowboarding (loc : LocationMetadata) (w : WeatherSnapshot) : SuitabilityResult :=
  let gate := skiGate loc
  if isRainOnSnow w then
    finalizeSkiScore 1 (gate.2 ++ ["Rain on snow – very poor skiing conditions."]) gate.1
  else if skiGustCliff w then
    finalizeSkiScore (1/2) (gate.2 ++ ["Potential lift closures due to very strong gusts."]) gate.1
  else
    let t := skiTempBlock w
    let sf := skiSnowfallBlock w
    let b := skiBaseBlock w
    let wd := skiWindBlock w
    let v := skiVisBlock w
    finalizeSkiScore (10 + t.1 + sf.1 + b.1 + wd.1 + v.1)
      (gate.2 ++ t.2 ++ sf.2 ++ b.2 ++ wd.2 ++ v.2) gate.1

/-- The reasons accumulated by `scoreSkiingSnowboarding` before
deduplication, per path. -/
def skiRawReasons (loc : LocationMetadata) (w : WeatherSnapshot) : List String :=
  let gate := skiGate loc
  if isRainOnSnow w then gate.2 ++ ["Rain on snow – very poor skiing conditions."]
  else if skiGustCliff w then gate.2 ++ ["Potential lift closures due to very strong gusts."]
  else
    gate.2 ++ (skiTempBlock w).2 ++ (skiSnowfallBlock w).2 ++ (skiBaseBlock w).2 ++
      (skiWindBlock w).2 ++ (skiVisBlock w).2

/-!  Hiking (source lines 368-472). -/

/-- Gatekeeper of `scoreHiking` (lines 374-380): maximum achievable internal
score and any gate reason. -/
def hikeGate (loc : LocationMetadata) : ℚ × List String :=
  if loc.isUrban && !loc.isPark then (4, ["Urban environment; limited hiking terrain."])
  else if loc.isPark then (10, ["Park or natural area; good for hiking."])
  else (10, [])

/-- Source line 384: `const apparentTemp = w.apparentTempC ?? w.tempC` — the
hiking scorer falls back to the dry-bulb temperature when the apparent
temperature is absent. -/
def apparentTemp (w : WeatherSnapshot) : ℚ := w.apparentTempC.getD w.tempC

/-- Thunderstorm cliff condition (line 400). -/
def hikeThunderCliff (w : WeatherSnapshot) : Bool :=
  match w.weatherCode with
  | some c => decide (c ≥ 95)
  | none => false

/-- Temperature curve block (lines 416-433), evaluated on `apparentTemp`. -/
def hikeTempBlock (w : WeatherSnapshot) : ℚ × List String :=
  let a := apparentTemp w
  if a ≥ 10 ∧ a ≤ 22 then (0, ["Comfortable temperature for hiking."])
  else if (a ≥ 0 ∧ a < 10) ∨ (a > 22 ∧ a ≤ 30) then
    (-3/2, if a < 10 then ["Cool weather; dress in layers."]
           else ["Warm weather; stay hydrated."])
  else if a < 0 ∨ a > 30 then
    (-3, if a < 0 then ["Cold conditions; winter gear needed."]
         else ["Hot conditions; take breaks in shade."])
  else (0, [])

/-- Rain-likelihood curve block (lines 436-442). -/
def hikeRainBlock (w : WeatherSnapshot) : ℚ × List String :=
  if decide (w.precipMm > 2) ||
      (match w.precipProb with | some p => decide (p > 80) | none => false) then
    (-3, ["High chance of rain; trails likely wet and slippery."])
  else if (match w.precipProb with | some p => decide (p > 40) | none => false) then
    (-3/2, ["Showers possible; bring rain gear."])
  else (0, [])

/-- Soil-moisture curve block (lines 445-453). -/
def hikeSoilBlock (w : WeatherSnapshot) : ℚ × List String :=
  match w.soilMoistureTopLayer with
  | some m =>
    if m > 2/5 then (-5/2, ["Very muddy/slippery trail conditions."])
    else if m > 3/10 then (-1, ["Trails may be muddy."])
    else (0, [])
  | none => (0, [])

/-- Wind curve block (lines 456-459). -/
def hikeWindBlock (w : WeatherSnapshot) : ℚ × List String :=
  if w.windKph > 40 then (-2, ["Strong winds on exposed trails."])
  else (0, [])

/-- Source `finalizeHikeScore` (lines 464-472). -/
def finalizeHikeScore (score10 : ℚ) (reasons : List String) (maxScore : ℚ) : SuitabilityResult :=
  let s := max 0 (min maxScore score10)
  { score := jsRound (s * 10)
    label := getLabel (jsRound (s * 10))
    reasons := dedupeReasons reasons 3 }

/-- Source `scoreHiking` (lines 368-461). -/
def scoreHiking (loc : LocationMetadata) (w : WeatherSnapshot) : SuitabilityResult :=
  let gate := hikeGate loc
  if apparentTemp w > 35 then
    finalizeHikeScore (3/2) (gate.2 ++ ["Dangerous heat; high risk of heat exhaustion."]) gate.1
  else if apparentTemp w < -10 then
    finalizeHikeScore 2 (gate.2 ++ ["Extreme cold; frostbite risk."]) gate.1
  else if hikeThunderCliff w then
    finalizeHikeScore 1 (gate.2 ++ ["Thunderstorms expected – unsafe for hiking."]) gate.1
  else if w.precipMm > 5 then
    finalizeHikeScore 1 (gate.2 ++ ["Heavy rain – trails likely unsafe/unpleasant."]) gate.1
  else
    let t := hikeTempBlock w
    let r := hikeRainBlock w
    let s := hikeSoilBlock w
    let wd := hikeWindBlock w
    finalizeHikeScore (10 + t.1 + r.1 + s.1 + wd.1)
      (gate.2 ++ t.2 ++ r.2 ++ s.2 ++ wd.2) gate.1

/-- The reasons accumulated by `scoreHiking` before deduplication, per path. -/
def hikeRawReasons (loc : LocationMetadata) (w : WeatherSnapshot) : List String :=
  let gate := hikeGate loc
  if apparentTemp w > 35 then gate.2 ++ ["Dangerous heat; high risk of heat exhaustion."]
  else if apparentTemp w < -10 then gate.2 ++ ["Extreme cold; frostbite risk."]
  else if hikeThunderCliff w then gate.2 ++ ["Thunderstorms expected – unsafe for hiking."]
  else if w.precipMm > 5 then gate.2 ++ ["Heavy rain – trails likely unsafe/unpleasant."]
  else
    gate.2 ++ (hikeTempBlock w).2 ++ (hikeRainBlock w).2 ++ (hikeSoilBlock w).2 ++
      (hikeWindBlock w).2

/-- Source `scoreActivity` (lines 68-88); the `default` branch of the source
switch is unreachable because `Activity` is a closed union. -/
def scoreActivity (activity : Activity) (loc : LocationMetadata) (w : WeatherSnapshot) :
    SuitabilityResult :=
  match activity with
  | .surfing => scoreSurfing loc w
  | .hiking => scoreHiking loc w
  | .skiing => scoreSkiingSnowboarding loc w
  | .snowboarding => scoreSkiingSnowboarding loc w

/-- The reasons generated during scoring before deduplication, per activity. -/
def rawReasons (activity : Activity) (loc : LocationMetadata) (w : WeatherSnapshot) :
    List String :=
  match activity with
  | .surfing => surfRawReasons loc w
  | .hiking => hikeRawReasons loc w
  | .skiing => skiRawReasons loc w
  | .snowboarding => skiRawReasons loc w

/-!  Location classifier (`src/web/lib/locationMetadata.ts`).  Constant
tables that the shipped `buildLocationMetadata` never reads
(`COASTAL_KEYWORDS`, `LARGE_WATER_KEYWORDS`, `KNOWN_COASTAL_LOCATIONS`,
`SURF_FRIENDLY_TAGS`) are omitted, as is the never-called helper
`checkPinTags`. -/

/-- Source `SNOW_FRIENDLY_TAGS` (line 10). -/
def SNOW_FRIENDLY_TAGS : List String :=
  ["ski-area", "ski", "snowboard", "resort", "ski-resort", "ski_resort"]

/-- Source `KNOWN_SKI_RESORTS` (lines 16-31). -/
def KNOWN_SKI_RESORTS : List String :=
  ["gore mountain", "whiteface", "belleayre", "hunter mountain", "windham mountain",
   "holiday valley", "bristol mountain", "greek peak", "mount snow", "killington",
   "stowe", "sugarbush", "jay peak", "okemo", "stratton",
   "vail", "aspen", "breckenridge", "keystone", "copper mountain",
   "steamboat", "winter park", "telluride", "crested butte",
   "park city", "deer valley", "snowbird", "alta", "brighton",
   "mammoth", "squaw valley", "heavenly", "northstar", "kirkwood",
   "jackson hole", "big sky", "sun valley", "whistler", "lake tahoe"]

/-- Source `PARK_KEYWORDS` (lines 50-54). -/
def PARK_KEYWORDS : List String :=
  ["park", "recreation", "preserve", "reserve", "forest", "woods",
   "garden", "gardens", "trail", "trails", "nature", "wildlife",
   "conservation", "sanctuary", "arboretum", "botanical"]

/-- Source `URBAN_KEYWORDS` (lines 59-63). -/
def URBAN_KEYWORDS : List String :=
  ["city", "downtown", "midtown", "uptown", "metropolitan", "urban",
   "residential", "commercial", "industrial", "business", "district",
   "square", "plaza", "mall"]

/-- Source `KNOWN_SURF_SPOTS` (lines 84-88). -/
def KNOWN_SURF_SPOTS : List String :=
  ["montauk", "rockaway", "long beach", "lido", "ditch plains",
   "mavericks", "rincon", "trestles", "pipeline",
   "waimea bay", "steamer lane"]

/-- Source `KNOWN_PARKS` (lines 98-106). -/
def KNOWN_PARKS : List String :=
  ["central park", "prospect park", "golden gate park", "griffith park",
   "millennium park", "hyde park", "stanley park", "high park",
   "yosemite", "yellowstone", "grand canyon", "zion", "glacier",
   "rocky mountain", "great smoky", "acadia", "joshua tree",
   "death valley", "everglades", "olympic", "mount rainier",
   "sequoia", "redwood", "big sur", "shenandoah", "blue ridge",
   "appalachian", "catskills", "adirondacks", "white mountains"]

/-- Source `NominatimData.address` interface (lines 112-129). -/
structure NominatimAddress where
  leisure : Option String := none
  tourism : Option String := none
  natural : Option String := none
  amenity : Option String := none
  landuse : Option String := none
  neighbourhood : Option String := none
  hamlet : Option String := none
  village : Option String := none
  town : Option String := none
  suburb : Option String := none
  city : Option String := none
  county : Option String := none
  state : Option String := none
  country : Option String := none
  country_code : Option String := none
  road : Option String := none
deriving DecidableEq

/-- Source `NominatimData` interface (lines 111-135); `extratags` is a string
record, modelled as an association list in insertion order. -/
structure NominatimData where
  address : Option NominatimAddress := none
  name : Option String := none
  display_name : Option String := none
  type : Option String := none
  «class» : Option String := none
  extratags : Option (List (String × String)) := none
deriving DecidableEq

/-- Source `checkKeywords` (lines 261-263). -/
def checkKeywords (text : String) (keywords : List String) : Bool :=
  keywords.any (fun kw => strIncludes text kw)

/-- Source `checkKnownLocations` (lines 268-271). -/
def checkKnownLocations (name : String) (knownLocations : List String) : Bool :=
  knownLocations.any (fun l => strIncludes (toLowerStr name) l)

/-- Source `deriveSnowFriendly` (lines 359-383). -/
def deriveSnowFriendly (rawName : String) (tags : Option (List String)) (allText : String) :
    Bool :=
  let lowerTags := (tags.getD []).map toLowerStr
  if lowerTags.any (fun t => SNOW_FRIENDLY_TAGS.contains t) then true
  else if strIncludes allText ("ski") || strIncludes allText ("snowboard") then true
  else if KNOWN_SKI_RESORTS.any (fun resort => strIncludes (toLowerStr rawName) resort) then true
  else false

/-- Source `deriveSurfFriendly` (lines 393-424). -/
def deriveSurfFriendly (name canonicalName : String) (tags : Option (List String)) : Bool :=
  let lowerName := toLowerStr name
  let lowerCanonical := toLowerStr canonicalName
  if (match tags with
      | some ts => ts.contains ("surf-spot") || ts.contains ("surfing")
      | none => false) then true
  else
    let hasBeach := strIncludes lowerName ("beach") || strIncludes lowerCanonical ("beach")
    if hasBeach &&
        KNOWN_SURF_SPOTS.any (fun spot =>
          strIncludes lowerName spot || strIncludes lowerCanonical spot) then true
    else if KNOWN_SURF_SPOTS.any (fun spot =>
          strIncludes lowerName spot || strIncludes lowerCanonical spot) then true
    else false

/-- Source `checkCoastalFromOSM` (lines 278-344).  This helper is defined in
the source file but never called from `buildLocationMetadata` or anywhere
else in the repository. -/
def checkCoastalFromOSM (osmType osmClass displayName : String)
    (addr : Option NominatimAddress) : Bool :=
  let lowerType := toLowerStr osmType
  let lowerClass := toLowerStr osmClass
  let lowerDisplay := toLowerStr displayName
  if lowerType == "island" || lowerType == "islet" || lowerType == "peninsula" then true
  else if lowerClass == "natural" &&
      (["beach", "coastline", "bay", "cape", "cliff", "reef", "shoal",
        "strait", "cove", "inlet", "headland"].contains lowerType) then true
  else if (lowerClass == "waterway" || lowerClass == "water") &&
      (["sea", "ocean", "bay", "harbour", "harbor", "marina", "dock"].contains lowerType) then
    true
  else if lowerType == "beach" || lowerType == "seaside" then true
  else if (["atlantic ocean", "pacific ocean", "indian ocean", "arctic ocean",
            ", ocean", ", sea", " sea,", " bay,", " harbour,", " harbor,"]).any
      (fun indicator => strIncludes lowerDisplay indicator) then true
  else
    let amenity := ((addr.bind (·.amenity)).map toLowerStr).getD ("")
    let tourism := ((addr.bind (·.tourism)).map toLowerStr).getD ("")
    let leisure := ((addr.bind (·.leisure)).map toLowerStr).getD ("")
    let natural := ((addr.bind (·.natural)).map toLowerStr).getD ("")
    if (["beach", "coast", "shore", "marina", "pier", "harbour", "harbor"]).any
        (fun feature =>
          strIncludes amenity feature || strIncludes tourism feature ||
          strIncludes leisure feature || strIncludes natural feature) then true
    else false

/-- Source `buildLocationMetadata` (lines 140-256). -/
def buildLocationMetadata (nominatimData : Option NominatimData) (pinName : String)
    (pinTags : Option (List String)) : LocationMetadata :=
  let addr := (nominatimData.bind (·.address)).getD {}
  let extratags := (nominatimData.bind (·.extratags)).getD []
  let osmType := (nominatimData.bind (·.type)).getD ("")
  let osmClass := (nominatimData.bind (·.«class»)).getD ("")
  let displayName := (nominatimData.bind (·.display_name)).getD ("")
  let name := (nominatimData.bind (·.name)).getD ("")
  let rawParts : List (Option String) :=
    [some pinName, some displayName, some name, addr.leisure, addr.tourism, addr.natural,
     addr.amenity, addr.landuse, addr.neighbourhood, addr.suburb, some osmType, some osmClass]
      ++ (pinTags.getD []).map some ++ extratags.map (fun kv => some kv.2)
  let allText :=
    toLowerStr (String.intercalate (" ") ((rawParts.filterMap id).filter (fun s => !(s == ""))))
  let surfTagForced :=
    match pinTags with
    | some ts => ts.contains ("surf-spot") || ts.contains ("surfing")
    | none => false
  let cw : Bool × Bool × Bool :=
    if surfTagForced then (true, true, true)
    else
      let isIsland := osmClass == "place" && (osmType == "island" || osmType == "archipelago")
      let coastalTypes := ["beach", "coastline", "bay", "sea", "ocean", "gulf",
                           "harbour", "harbor"]
      let osmNatural :=
        match extratags.find? (fun kv => kv.1 == "natural") with
        | some kv => toLowerStr kv.2
        | none => ""
      let lowerName := toLowerStr name
      let lowerDisplayName := toLowerStr displayName
      let coastalKeywords := ["beach", "seaside", "shore", "coast", "ocean", "bay",
                              "gulf", "sea"]
      let isCoastal :=
        isIsland ||
        (coastalTypes.contains (toLowerStr osmType) ||
          coastalTypes.any (fun ct => strIncludes osmNatural ct)) ||
        coastalKeywords.any (fun kw =>
          strIncludes lowerName kw || strIncludes lowerDisplayName kw)
      let waterTypes := ["sea", "ocean", "water", "lake", "reservoir", "lagoon"]
      let waterClass := ["waterway", "water", "natural"]
      let hasLargeWaterNearby :=
        isIsland ||
        (isCoastal || waterTypes.contains (toLowerStr osmType) ||
          waterClass.contains (toLowerStr osmClass) ||
          waterTypes.any (fun wt => strIncludes osmNatural wt))
      let surfFriendly := deriveSurfFriendly pinName displayName pinTags
      (isCoastal, hasLargeWaterNearby, surfFriendly)
  let isPark :=
    checkKeywords allText PARK_KEYWORDS ||
    checkKnownLocations pinName KNOWN_PARKS ||
    osmClass == "leisure" ||
    osmType == "park" ||
    osmType == "nature_reserve" ||
    osmType == "national_park"
  let isUrban :=
    checkKeywords allText URBAN_KEYWORDS ||
    jsTruthyStr addr.city ||
    (jsTruthyStr addr.suburb && !isPark) ||
    (osmClass == "place" && (["city", "town", "suburb", "neighbourhood"].contains osmType))
  let snowFriendly : Option Bool :=
    if deriveSnowFriendly pinName pinTags allText then some true
    else if osmType == "ski" then some true
    else if (match addr.leisure with
             | some l => strIncludes (toLowerStr l) ("ski")
             | none => false) then some true
    else
      match addr.tourism with
      | some t => some (strIncludes (toLowerStr t) ("ski"))
      | none => none
  { name := pinName
    countryCode := addr.country_code.map toUpperStr
    osmCategory := if osmClass == "" then none else some osmClass
    osmType := if osmType == "" then none else some osmType
    isCoastal := cw.1
    hasLargeWaterNearby := cw.2.1
    isPark := isPark
    isUrban := isUrban
    snowFriendly := snowFriendly
    surfFriendly := some cw.2.2 }

/-!  Shared lemmas about `firstDedup` / `dedupeReasons`. -/

theorem firstDedupAux_mem {y : String} :
    ∀ {seen l : List String}, y ∈ firstDedupAux seen l → y ∉ seen ∧ y ∈ l := by
  intro seen l
  induction l generalizing seen with
  | nil => simp [firstDedupAux]
  | cons x xs ih =>
    simp only [firstDedupAux]
    split_ifs with hx
    · intro h
      obtain ⟨h1, h2⟩ := ih h
      exact ⟨h1, List.mem_cons_of_mem _ h2⟩
    · intro h
      rcases List.mem_cons.mp h with rfl | h
      · refine ⟨?_, List.mem_cons_self _ _⟩
        intro hy
        exact hx (List.elem_iff.mpr hy)
      · obtain ⟨h1, h2⟩ := ih h
        exact ⟨fun hy => h1 (List.mem_cons_of_mem _ hy), List.mem_cons_of_mem _ h2⟩

theorem firstDedupAux_sublist : ∀ (seen l : List String), (firstDedupAux seen l).Sublist l := by
  intro seen l
  induction l generalizing seen with
  | nil => simp [firstDedupAux]
  | cons x xs ih =>
    simp only [firstDedupAux]
    split_ifs with hx
    · exact (ih seen).trans (List.sublist_cons_self x xs)
    · exact (ih (x :: seen)).cons₂ x

theorem firstDedupAux_nodup : ∀ (seen l : List String), (firstDedupAux seen l).Nodup := by
  intro seen l
  induction l generalizing seen with
  | nil => simp [firstDedupAux]
  | cons x xs ih =>
    simp only [firstDedupAux]
    split_ifs with hx
    · exact ih seen
    · refine List.nodup_cons.mpr ⟨?_, ih (x :: seen)⟩
      intro hmem
      exact (firstDedupAux_mem hmem).1 (List.mem_cons_self x seen)

theorem firstDedupAux_pairwise :
    ∀ (seen l : List String),
      (firstDedupAux seen l).Pairwise (fun a b => l.indexOf a < l.indexOf b) := by
  intro seen l
  induction l generalizing seen with
  | nil => simp [firstDedupAux]
  | cons x xs ih =>
    simp only [firstDedupAux]
    split_ifs with hx
    · have hxs : x ∈ seen := List.elem_iff.mp hx
      refine (ih seen).imp_of_mem ?_
      intro a b ha hb hr
      have hax : a ≠ x := fun h => ((firstDedupAux_mem ha).1 (h ▸ hxs)).elim
      have hbx : b ≠ x := fun h => ((firstDedupAux_mem hb).1 (h ▸ hxs)).elim
      rw [List.indexOf_cons_ne _ hax.symm, List.indexOf_cons_ne _ hbx.symm]
      omega
    · refine List.pairwise_cons.mpr ⟨?_, ?_⟩
      · intro b hb
        have hbx : b ≠ x := fun h =>
          ((firstDedupAux_mem hb).1 (h ▸ List.mem_cons_self x seen)).elim
        rw [List.indexOf_cons_self, List.indexOf_cons_ne _ hbx.symm]
        omega
      · refine (ih (x :: seen)).imp_of_mem ?_
        intro a b ha hb hr
        have hax : a ≠ x := fun h =>
          ((firstDedupAux_mem ha).1 (h ▸ List.mem_cons_self x seen)).elim
        have hbx : b ≠ x := fun h =>
          ((firstDedupAux_mem hb).1 (h ▸ List.mem_cons_self x seen)).elim
        rw [List.indexOf_cons_ne _ hax.symm, List.indexOf_cons_ne _ hbx.symm]
        omega

theorem dedupeReasons_spec (l : List String) (n : ℕ) :
    (dedupeReasons l n).length ≤ n ∧ (dedupeReasons l n).Nodup ∧
      (dedupeReasons l n).Sublist l ∧
      (dedupeReasons l n).Pairwise (fun a b => l.indexOf a < l.indexOf b) := by
  refine ⟨List.length_take_le n _, ?_, ?_, ?_⟩
  · exact (firstDedupAux_nodup [] l).sublist (List.take_sublist n _)
  · exact (List.take_sublist n _).trans (firstDedupAux_sublist [] l)
  · exact (firstDedupAux_pairwise [] l).sublist (List.take_sublist n _)

theorem dedupeReasons_cons (x : String) (xs : List String) (n : ℕ) :
    dedupeReasons (x :: xs) (n + 1) = x :: (firstDedupAux [x] xs).take n := by
  simp [dedupeReasons, firstDedup, firstDedupAux]

theorem mem_dedupeReasons_head (x : String) (xs : List String) (n : ℕ) :
    x ∈ dedupeReasons (x :: xs) (n + 1) := by
  rw [dedupeReasons_cons]
  exact List.mem_cons_self _ _

/-!  Shared arithmetic lemmas about rounding and clamping. -/

theorem jsRound_nonneg {q : ℚ} (h : 0 ≤ q) : 0 ≤ jsRound (q * 10) := by
  unfold jsRound
  refine Int.le_floor.mpr ?_
  push_cast
  linarith

theorem jsRound_le_of_le {q b : ℚ} (h : q ≤ b) : jsRound (q * 10) ≤ jsRound (b * 10) := by
  unfold jsRound
  exact Int.floor_le_floor (by linarith)

theorem jsRound_three : jsRound ((3 : ℚ) * 10) = 30 := by
  norm_num [jsRound]

theorem jsRound_ten : jsRound ((10 : ℚ) * 10) = 100 := by
  norm_num [jsRound]

theorem clamp_nonneg (m s : ℚ) : 0 ≤ max 0 (min m s) := le_max_left 0 _

theorem clamp_le {m s : ℚ} (h : 0 ≤ m) : max 0 (min m s) ≤ m :=
  max_le h (min_le_left m s)

theorem clampedScore_bounds (m s : ℚ) (h0 : 0 ≤ m) (h1 : m ≤ 10) :
    0 ≤ jsRound (max 0 (min m s) * 10) ∧ jsRound (max 0 (min m s) * 10) ≤ 100 := by
  refine ⟨jsRound_nonneg (clamp_nonneg m s), ?_⟩
  calc jsRound (max 0 (min m s) * 10) ≤ jsRound ((10 : ℚ) * 10) :=
        jsRound_le_of_le ((clamp_le h0).trans h1)
    _ = 100 := jsRound_ten

/-!  Bridge lemmas about the individual scorers. -/

theorem hasMarineData_iff (w : WeatherSnapshot) :
    hasMarineData w = true ↔
      ∃ h p, w.waveHeightM = some h ∧ w.swellPeriodS = some p ∧ h > 3/10 ∧ p ≥ 5 := by
  unfold hasMarineData
  rcases hw : w.waveHeightM with _ | h <;> rcases hp : w.swellPeriodS with _ | p <;>
    simp [hw, hp, and_assoc]

theorem isSurfable_true_iff (loc : LocationMetadata) (w : WeatherSnapshot) :
    isSurfable loc w = true ↔
      (loc.surfFriendly = some true ∨
        (loc.isCoastal = true ∧ loc.hasLargeWaterNearby = true) ∨
        (∃ h p, w.waveHeightM = some h ∧ w.swellPeriodS = some p ∧ h > 3/10 ∧ p ≥ 5)) := by
  unfold isSurfable isOceanic
  rw [Bool.or_eq_true, Bool.or_eq_true, Bool.and_eq_true, beq_iff_eq, hasMarineData_iff]

theorem isSurfable_false_iff (loc : LocationMetadata) (w : WeatherSnapshot) :
    isSurfable loc w = false ↔
      (loc.surfFriendly ≠ some true ∧
        ¬(loc.isCoastal = true ∧ loc.hasLargeWaterNearby = true) ∧
        ¬(∃ h p, w.waveHeightM = some h ∧ w.swellPeriodS = some p ∧ h > 3/10 ∧ p ≥ 5)) := by
  rw [← Bool.not_eq_true, isSurfable_true_iff]
  push_neg
  tauto

theorem surfWaveBlock_head (w : WeatherSnapshot) :
    ∃ r t, (surfWaveBlock w).2 = r :: t ∧ r ≠ surfGateReason := by
  unfold surfWaveBlock
  rcases w.waveHeightM with _ | h
  · exact ⟨_, _, rfl, by decide⟩
  · dsimp only
    split_ifs with h1 h2 h3 h4 h5
    · exact ⟨_, _, rfl, by decide⟩
    · exact ⟨_, _, rfl, by decide⟩
    · exact ⟨_, _, rfl, by decide⟩
    · exact ⟨_, _, rfl, by decide⟩
    · exact ⟨_, _, rfl, by decide⟩
    · push_neg at h2 h3 h5
      exact absurd (h3 h2) (not_lt.mpr h5)

theorem finalizeSurfScore_spec (s : ℚ) (r : List String) :
    0 ≤ (finalizeSurfScore s r).score ∧ (finalizeSurfScore s r).score ≤ 100 ∧
      (finalizeSurfScore s r).label = getLabel (finalizeSurfScore s r).score :=
  ⟨(clampedScore_bounds 10 s (by norm_num) (by norm_num)).1,
   (clampedScore_bounds 10 s (by norm_num) (by norm_num)).2, rfl⟩

theorem finalizeSkiScore_spec (s : ℚ) (r : List String) (m : ℚ) (h0 : 0 ≤ m) (h1 : m ≤ 10) :
    0 ≤ (finalizeSkiScore s r m).score ∧ (finalizeSkiScore s r m).score ≤ 100 ∧
      (finalizeSkiScore s r m).label = getLabel (finalizeSkiScore s r m).score :=
  ⟨(clampedScore_bounds m s h0 h1).1, (clampedScore_bounds m s h0 h1).2, rfl⟩

theorem finalizeHikeScore_spec (s : ℚ) (r : List String) (m : ℚ) (h0 : 0 ≤ m) (h1 : m ≤ 10) :
    0 ≤ (finalizeHikeScore s r m).score ∧ (finalizeHikeScore s r m).score ≤ 100 ∧
      (finalizeHikeScore s r m).label = getLabel (finalizeHikeScore s r m).score :=
  ⟨(clampedScore_bounds m s h0 h1).1, (clampedScore_bounds m s h0 h1).2, rfl⟩

theorem skiGate_fst_bounds (loc : LocationMetadata) :
    0 ≤ (skiGate loc).1 ∧ (skiGate loc).1 ≤ 10 := by
  unfold skiGate
  split_ifs <;> norm_num

theorem hikeGate_fst_bounds (loc : LocationMetadata) :
    0 ≤ (hikeGate loc).1 ∧ (hikeGate loc).1 ≤ 10 := by
  unfold hikeGate
  split_ifs <;> norm_num

theorem scoreSurfing_reasons (loc : LocationMetadata) (w : WeatherSnapshot) :
    (scoreSurfing loc w).reasons = dedupeReasons (surfRawReasons loc w) 3 := by
  unfold scoreSurfing surfRawReasons
  split_ifs <;> rfl

theorem scoreSki_reasons (loc : LocationMetadata) (w : WeatherSnapshot) :
    (scoreSkiingSnowboarding loc w).reasons = dedupeReasons (skiRawReasons loc w) 3 := by
  unfold scoreSkiingSnowboarding skiRawReasons
  split_ifs <;> rfl

theorem scoreHiking_reasons (loc : LocationMetadata) (w : WeatherSnapshot) :
    (scoreHiking loc w).reasons = dedupeReasons (hikeRawReasons loc w) 3 := by
  unfold scoreHiking hikeRawReasons
  split_ifs <;> rfl

theorem dedupeReasons_cons3 (x : String) (xs : List String) :
    dedupeReasons (x :: xs) 3 = x :: (firstDedupAux [x] xs).take 2 := rfl

/-- Claim C1: `scoreActivity` for surfing returns the fixed infeasibility
result (score 0, TERRIBLE, exactly the single gate reason, with no
weather-based scoring) if and only if the location is not marked
surf-friendly, is not both coastal and near large water, and the snapshot
does not carry marine data with `waveHeightM > 0.3` and `swellPeriodS ≥ 5`.
In particular an all-flags-false location with `waveHeightM` absent is
infeasible, while the same location with `waveHeightM = 1.2` and
`swellPeriodS = 9` passes the gate. -/
theorem claim_c1 :
    (∀ (loc : LocationMetadata) (w : WeatherSnapshot),
      scoreActivity Activity.surfing loc w = surfInfeasibleResult ↔
        (loc.surfFriendly ≠ some true ∧
          ¬(loc.isCoastal = true ∧ loc.hasLargeWaterNearby = true) ∧
          ¬(∃ h p, w.waveHeightM = some h ∧ w.swellPeriodS = some p ∧ h > 3/10 ∧ p ≥ 5))) ∧
      scoreActivity Activity.surfing {} { tempC := 20, windKph := 10, precipMm := 0 } =
        surfInfeasibleResult ∧
      isSurfable {}
        { tempC := 20, windKph := 10, precipMm := 0, waveHeightM := some (6/5),
          swellPeriodS := some 9 } = true := by
  refine ⟨?_, rfl, ?_⟩
  · intro loc w
    rw [← isSurfable_false_iff loc w]
    simp only [scoreActivity]
    unfold scoreSurfing
    by_cases hs : isSurfable loc w = true
    · rw [if_neg (by simp [hs])]
      refine iff_of_false ?_ (by simp [hs])
      intro heq
      split_ifs at heq with h1 h2
      · exact absurd (congrArg SuitabilityResult.reasons heq) (by decide)
      · exact absurd (congrArg SuitabilityResult.reasons heq) (by decide)
      · obtain ⟨r, t, hrt, hne⟩ := surfWaveBlock_head w
        have hre : dedupeReasons
            ((surfWaveBlock w).2 ++ (surfSwellBlock w).2 ++ (surfWindBlock w).2 ++
              (surfTempBlock w).2) 3 = [surfGateReason] :=
          congrArg SuitabilityResult.reasons heq
        rw [hrt] at hre
        simp only [List.cons_append] at hre
        rw [dedupeReasons_cons3] at hre
        injection hre with hre1 _
        exact hne hre1
    · have hs' : isSurfable loc w = false := by simpa using hs
      rw [if_pos (by simp [hs'])]
      exact iff_of_true rfl hs'
  · simp [isSurfable, isOceanic, hasMarineData]
    norm_num

/-- Witness for C1: the iff instantiated at a concrete inland location and
marine-data-free snapshot, with the right-hand side discharged concretely. -/
theorem claim_c1_witness :
    scoreActivity Activity.surfing {} { tempC := 5, windKph := 3, precipMm := 1 } =
      surfInfeasibleResult :=
  (claim_c1.1 {} { tempC := 5, windKph := 3, precipMm := 1 }).mpr
    ⟨by decide, by simp, by rintro ⟨h, p, hh, -⟩; exact Option.noConfusion hh⟩

/-- Claim C2: for every activity, location, and weather snapshot, the result
of `scoreActivity` has an integer score in [0, 100] (integrality is captured
by the score being of type `ℤ`), and its label is exactly TERRIBLE when
`score ≤ 30`, OK when `30 < score ≤ 70`, and GREAT when `score > 70`. -/
theorem claim_c2 (a : Activity) (loc : LocationMetadata) (w : WeatherSnapshot) :
    0 ≤ (scoreActivity a loc w).score ∧ (scoreActivity a loc w).score ≤ 100 ∧
      (scoreActivity a loc w).label =
        (if (scoreActivity a loc w).score ≤ 30 then SuitabilityLabel.TERRIBLE
         else if (scoreActivity a loc w).score ≤ 70 then SuitabilityLabel.OK
         else SuitabilityLabel.GREAT) := by
  have key : 0 ≤ (scoreActivity a loc w).score ∧ (scoreActivity a loc w).score ≤ 100 ∧
      (scoreActivity a loc w).label = getLabel (scoreActivity a loc w).score := by
    cases a with
    | surfing =>
      simp only [scoreActivity]
      unfold scoreSurfing
      split_ifs
      · exact ⟨by decide, by decide, rfl⟩
      · exact finalizeSurfScore_spec _ _
      · exact finalizeSurfScore_spec _ _
      · exact finalizeSurfScore_spec _ _
    | skiing =>
      simp only [scoreActivity, scoreSkiingSnowboarding]
      split_ifs <;>
        exact finalizeSkiScore_spec _ _ _ (skiGate_fst_bounds loc).1 (skiGate_fst_bounds loc).2
    | snowboarding =>
      simp only [scoreActivity, scoreSkiingSnowboarding]
      split_ifs <;>
        exact finalizeSkiScore_spec _ _ _ (skiGate_fst_bounds loc).1 (skiGate_fst_bounds loc).2
    | hiking =>
      simp only [scoreActivity, scoreHiking]
      split_ifs <;>
        exact finalizeHikeScore_spec _ _ _ (hikeGate_fst_bounds loc).1 (hikeGate_fst_bounds loc).2
  refine ⟨key.1, key.2.1, ?_⟩
  rw [key.2.2]
  rfl

/-- Claim C9: for every activity, location, and weather snapshot, the reasons
list of the returned result has length at most 3, contains no duplicates, is
a sublist of the reasons generated during scoring, and lists them in
first-occurrence order (positions of first occurrences in the generated list
are strictly increasing). -/
theorem claim_c9 (a : Activity) (loc : LocationMetadata) (w : WeatherSnapshot) :
    (scoreActivity a loc w).reasons.length ≤ 3 ∧ (scoreActivity a loc w).reasons.Nodup ∧
      (scoreActivity a loc w).reasons.Sublist (rawReasons a loc w) ∧
      (scoreActivity a loc w).reasons.Pairwise
        (fun x y => (rawReasons a loc w).indexOf x < (rawReasons a loc w).indexOf y) := by
  cases a with
  | surfing =>
    simp only [scoreActivity, rawReasons]
    rw [scoreSurfing_reasons loc w]
    exact dedupeReasons_spec _ 3
  | skiing =>
    simp only [scoreActivity, rawReasons]
    rw [scoreSki_reasons loc w]
    exact dedupeReasons_spec _ 3
  | snowboarding =>
    simp only [scoreActivity, rawReasons]
    rw [scoreSki_reasons loc w]
    exact dedupeReasons_spec _ 3
  | hiking =>
    simp only [scoreActivity, rawReasons]
    rw [scoreHiking_reasons loc w]
    exact dedupeReasons_spec _ 3

/-- Claim C10: in the surfing curve, when `swellPeriodS` is absent but
`waveHeightM` is present, the swell block deducts exactly 1.5 internal points
(15 public points before clamping) and attaches no reason; when both are
absent, the swell block deducts nothing and only the wave block's 4.0-point
missing-wave-data deduction (with its reason) applies. -/
theorem claim_c10 (w : WeatherSnapshot) (hs : w.swellPeriodS = none) :
    ((∃ h, w.waveHeightM = some h) → surfSwellBlock w = (-3/2, [])) ∧
      (w.waveHeightM = none →
        surfSwellBlock w = (0, []) ∧
          surfWaveBlock w = (-4, ["Wave data unavailable; conditions unknown."])) := by
  unfold surfSwellBlock surfWaveBlock
  rw [hs]
  constructor
  · rintro ⟨h, hw⟩
    rw [hw]
  · intro hw
    rw [hw]
    exact ⟨rfl, rfl⟩


/-- Sample snapshot for the C10 witness: wave height present, swell period
absent. -/
def c10SampleW : WeatherSnapshot := { tempC := 20, windKph := 10, precipMm := 0,
                                      waveHeightM := some 1 }

/-- Witness for C10 at a concrete snapshot. -/
theorem claim_c10_witness :
    c10SampleW.swellPeriodS = none ∧
      (((∃ h, c10SampleW.waveHeightM = some h) → surfSwellBlock c10SampleW = (-3/2, [])) ∧
        (c10SampleW.waveHeightM = none →
          surfSwellBlock c10SampleW = (0, []) ∧
            surfWaveBlock c10SampleW = (-4, ["Wave data unavailable; conditions unknown."]))) :=
  ⟨rfl, claim_c10 c10SampleW rfl⟩

theorem mem_dedupeReasons_head3 (x : String) (xs : List String) :
    x ∈ dedupeReasons (x :: xs) 3 := by
  rw [dedupeReasons_cons3]
  exact List.mem_cons_self _ _

theorem skiGate_cases (loc : LocationMetadata) :
    skiGate loc = (3, [skiResortReason]) ∨ skiGate loc = (10, []) := by
  unfold skiGate
  split_ifs <;> simp

theorem hikeGate_cases (loc : LocationMetadata) :
    hikeGate loc = (4, ["Urban environment; limited hiking terrain."]) ∨
      hikeGate loc = (10, ["Park or natural area; good for hiking."]) ∨
      hikeGate loc = (10, []) := by
  unfold hikeGate
  split_ifs <;> simp

theorem finalizeSkiScore_le_30 (s : ℚ) (r : List String) :
    (finalizeSkiScore s r 3).score ≤ 30 := by
  calc (finalizeSkiScore s r 3).score ≤ jsRound ((3 : ℚ) * 10) :=
        jsRound_le_of_le (clamp_le (by norm_num))
    _ = 30 := jsRound_three

/-- Claim C3 (counterexample part): with `apparentTempC` absent and
`tempC = 36`, the hiking scorer does evaluate the heat cliff against the
substituted `tempC` and returns the fixed cliff result, contrary to the
claim that absent optional fields are never defaulted. -/
theorem claim_c3_counterexample :
    ({ tempC := 36, windKph := 0, precipMm := 0 } : WeatherSnapshot).apparentTempC = none ∧
      scoreActivity Activity.hiking {} { tempC := 36, windKph := 0, precipMm := 0 } =
        { score := 15, label := SuitabilityLabel.TERRIBLE,
          reasons := ["Dangerous heat; high risk of heat exhaustion."] } := by
  refine ⟨rfl, ?_⟩
  norm_num [scoreActivity, scoreHiking, hikeGate, apparentTemp, finalizeHikeScore, jsRound,
    getLabel, dedupeReasons, firstDedup, firstDedupAux, min_def, max_def]

/-- Claim C3 (amended): when `apparentTempC` is absent the hiking scorer
falls back to `tempC` (source line 384, `w.apparentTempC ?? w.tempC`), so a
snapshot with `apparentTempC` absent and `tempC > 35` does trigger the
heat cliff: score 15, TERRIBLE, with the heat reason reported. -/
theorem claim_c3_amended (loc : LocationMetadata) (w : WeatherSnapshot)
    (ha : w.apparentTempC = none) (ht : w.tempC > 35) :
    (scoreActivity Activity.hiking loc w).score = 15 ∧
      (scoreActivity Activity.hiking loc w).label = SuitabilityLabel.TERRIBLE ∧
      "Dangerous heat; high risk of heat exhaustion." ∈
        (scoreActivity Activity.hiking loc w).reasons := by
  have hat : apparentTemp w > 35 := by simpa [apparentTemp, ha] using ht
  simp only [scoreActivity, scoreHiking]
  rw [if_pos hat]
  rcases hikeGate_cases loc with hg | hg | hg <;> rw [hg] <;>
    refine ⟨?_, ?_, ?_⟩ <;>
    first
      | decide
      | norm_num [finalizeHikeScore, jsRound, getLabel, min_def, max_def]

/-- Witness for the amended C3 at a concrete location and snapshot. -/
theorem claim_c3_amended_witness :
    (scoreActivity Activity.hiking {} { tempC := 40, windKph := 5, precipMm := 0 }).score = 15 ∧
      (scoreActivity Activity.hiking {}
          { tempC := 40, windKph := 5, precipMm := 0 }).label = SuitabilityLabel.TERRIBLE ∧
      "Dangerous heat; high risk of heat exhaustion." ∈
        (scoreActivity Activity.hiking {} { tempC := 40, windKph := 5, precipMm := 0 }).reasons :=
  claim_c3_amended {} { tempC := 40, windKph := 5, precipMm := 0 } rfl (by norm_num)

/-- Claim C4: for any location and any snapshot with `tempC > 0`,
`precipMm > 0.5`, and a weather code in the rain band [51, 67], both skiing
and snowboarding return score 10 and TERRIBLE with the rain-on-snow reason
(the cliff fixes the internal score at 1.0 and returns immediately). -/
theorem claim_c4 (loc : LocationMetadata) (w : WeatherSnapshot) (c : ℚ)
    (h1 : w.tempC > 0) (h2 : w.precipMm > 1/2) (hc : w.weatherCode = some c)
    (h3 : c ≥ 51) (h4 : c ≤ 67) :
    ((scoreActivity Activity.skiing loc w).score = 10 ∧
      (scoreActivity Activity.skiing loc w).label = SuitabilityLabel.TERRIBLE ∧
      "Rain on snow – very poor skiing conditions." ∈
        (scoreActivity Activity.skiing loc w).reasons) ∧
    ((scoreActivity Activity.snowboarding loc w).score = 10 ∧
      (scoreActivity Activity.snowboarding loc w).label = SuitabilityLabel.TERRIBLE ∧
      "Rain on snow – very poor skiing conditions." ∈
        (scoreActivity Activity.snowboarding loc w).reasons) := by
  have hrain : isRainOnSnow w = true := by
    unfold isRainOnSnow
    rw [hc]
    simp only [decide_eq_true_eq, Bool.and_eq_true]
    exact ⟨⟨h1, h2⟩, h3, h4⟩
  have main : (scoreSkiingSnowboarding loc w).score = 10 ∧
      (scoreSkiingSnowboarding loc w).label = SuitabilityLabel.TERRIBLE ∧
      "Rain on snow – very poor skiing conditions." ∈
        (scoreSkiingSnowboarding loc w).reasons := by
    simp only [scoreSkiingSnowboarding]
    rw [if_pos hrain]
    rcases skiGate_cases loc with hg | hg <;> rw [hg] <;>
      refine ⟨?_, ?_, ?_⟩ <;>
      first
        | decide
        | norm_num [finalizeSkiScore, jsRound, getLabel, min_def, max_def]
  exact ⟨main, main⟩

/-- Witness for C4 at a concrete rain-on-snow snapshot. -/
theorem claim_c4_witness :
    ((scoreActivity Activity.skiing {}
        { tempC := 1, windKph := 0, precipMm := 2, weatherCode := some 61 }).score = 10 ∧
      (scoreActivity Activity.skiing {}
        { tempC := 1, windKph := 0, precipMm := 2, weatherCode := some 61 }).label =
          SuitabilityLabel.TERRIBLE ∧
      "Rain on snow – very poor skiing conditions." ∈
        (scoreActivity Activity.skiing {}
          { tempC := 1, windKph := 0, precipMm := 2, weatherCode := some 61 }).reasons) ∧
    ((scoreActivity Activity.snowboarding {}
        { tempC := 1, windKph := 0, precipMm := 2, weatherCode := some 61 }).score = 10 ∧
      (scoreActivity Activity.snowboarding {}
        { tempC := 1, windKph := 0, precipMm := 2, weatherCode := some 61 }).label =
          SuitabilityLabel.TERRIBLE ∧
      "Rain on snow – very poor skiing conditions." ∈
        (scoreActivity Activity.snowboarding {}
          { tempC := 1, windKph := 0, precipMm := 2, weatherCode := some 61 }).reasons) :=
  claim_c4 {} { tempC := 1, windKph := 0, precipMm := 2, weatherCode := some 61 } 61
    (by norm_num) (by norm_num) rfl (by norm_num) (by norm_num)

/-- Claim C5: when a location is not marked `snowFriendly`, skiing and
snowboarding are never hard-failed at the gate: the score is capped at 30,
the not-a-resort reason is always reported, and with otherwise-perfect
weather the score is exactly 30 (not 0). -/
theorem claim_c5 :
    (∀ (loc : LocationMetadata) (w : WeatherSnapshot), loc.snowFriendly ≠ some true →
      ((scoreActivity Activity.skiing loc w).score ≤ 30 ∧
        skiResortReason ∈ (scoreActivity Activity.skiing loc w).reasons ∧
        (scoreActivity Activity.snowboarding loc w).score ≤ 30 ∧
        skiResortReason ∈ (scoreActivity Activity.snowboarding loc w).reasons)) ∧
      scoreActivity Activity.skiing { snowFriendly := some false }
          { tempC := -5, windKph := 2, precipMm := 0, snowfallCm := some 20,
            visibilityM := some 5000 } =
        { score := 30, label := SuitabilityLabel.TERRIBLE,
          reasons := [skiResortReason, "Temperature is ideal for skiing/snowboarding.",
                      "Powder day! Fresh snow expected."] } := by
  constructor
  · intro loc w hsf
    have hg : skiGate loc = (3, [skiResortReason]) := by
      unfold skiGate
      rw [if_pos hsf]
    have hmain : (scoreSkiingSnowboarding loc w).score ≤ 30 ∧
        skiResortReason ∈ (scoreSkiingSnowboarding loc w).reasons := by
      constructor
      · simp only [scoreSkiingSnowboarding, hg]
        split_ifs <;> exact finalizeSkiScore_le_30 _ _
      · have hraw : ∃ t, skiRawReasons loc w = skiResortReason :: t := by
          simp only [skiRawReasons, hg, List.cons_append, List.nil_append]
          split_ifs <;> exact ⟨_, rfl⟩
        obtain ⟨t, ht⟩ := hraw
        rw [scoreSki_reasons, ht]
        exact mem_dedupeReasons_head3 _ _
    exact ⟨hmain.1, hmain.2, hmain.1, hmain.2⟩
  · norm_num [scoreActivity, scoreSkiingSnowboarding, skiGate, isRainOnSnow, skiGustCliff,
      skiTempBlock, skiSnowfallBlock, skiBaseBlock, skiWindBlock, skiVisBlock,
      finalizeSkiScore, jsRound, getLabel, dedupeReasons, firstDedup, firstDedupAux,
      min_def, max_def, skiResortReason]
    all_goals decide

/-- Witness for the universal part of C5 at a concrete non-resort location. -/
theorem claim_c5_witness :
    (scoreActivity Activity.skiing { snowFriendly := some false }
        { tempC := 0, windKph := 0, precipMm := 0 }).score ≤ 30 ∧
      skiResortReason ∈ (scoreActivity Activity.skiing { snowFriendly := some false }
        { tempC := 0, windKph := 0, precipMm := 0 }).reasons ∧
      (scoreActivity Activity.snowboarding { snowFriendly := some false }
        { tempC := 0, windKph := 0, precipMm := 0 }).score ≤ 30 ∧
      skiResortReason ∈ (scoreActivity Activity.snowboarding { snowFriendly := some false }
        { tempC := 0, windKph := 0, precipMm := 0 }).reasons :=
  claim_c5.1 { snowFriendly := some false } { tempC := 0, windKph := 0, precipMm := 0 }
    (by decide)

/-- Claim C6: a snapshot with `apparentTempC` present and above 35 forces the
hiking heat cliff for every location: score 15 and TERRIBLE, regardless of
all other weather factors (1.5 internal is below both the 4.0 urban cap and
the 10.0 default cap). -/
theorem claim_c6 (loc : LocationMetadata) (w : WeatherSnapshot) (a : ℚ)
    (ha : w.apparentTempC = some a) (h35 : a > 35) :
    (scoreActivity Activity.hiking loc w).score = 15 ∧
      (scoreActivity Activity.hiking loc w).label = SuitabilityLabel.TERRIBLE := by
  have hat : apparentTemp w > 35 := by simpa [apparentTemp, ha] using h35
  simp only [scoreActivity, scoreHiking]
  rw [if_pos hat]
  rcases hikeGate_cases loc with hg | hg | hg <;> rw [hg] <;>
    constructor <;> norm_num [finalizeHikeScore, jsRound, getLabel, min_def, max_def]

/-- Witness for C6 at a concrete urban location and hot snapshot. -/
theorem claim_c6_witness :
    (scoreActivity Activity.hiking { isUrban := true }
        { tempC := 30, apparentTempC := some 36, windKph := 0, precipMm := 0 }).score = 15 ∧
      (scoreActivity Activity.hiking { isUrban := true }
        { tempC := 30, apparentTempC := some 36, windKph := 0, precipMm := 0 }).label =
        SuitabilityLabel.TERRIBLE :=
  claim_c6 { isUrban := true }
    { tempC := 30, apparentTempC := some 36, windKph := 0, precipMm := 0 } 36 rfl (by norm_num)

/-- Sample Nominatim record: OSM type `peninsula` with class `natural` and no
other signals. -/
def peninsulaSample : NominatimData := { type := some ("peninsula"), «class» := some ("natural") }

/-- Sample Nominatim record: OSM type `island` with class `natural` and no
other signals. -/
def islandNaturalSample : NominatimData :=
  { type := some ("island"), «class» := some ("natural") }

/-- Claim C7 (counterexample part): `buildLocationMetadata` does not treat
the OSM types `island` and `peninsula` as unconditionally coastal: with class
`natural` (and no other signals) both come out with `isCoastal = false`.
The unconditional island/peninsula rule exists only in the never-called
helper `checkCoastalFromOSM`, which does return true on the same inputs. -/
theorem claim_c7_counterexample :
    (buildLocationMetadata (some peninsulaSample) "" none).isCoastal = false ∧
      (buildLocationMetadata (some islandNaturalSample) "" none).isCoastal = false ∧
      checkCoastalFromOSM ("peninsula") ("natural") "" none = true ∧
      checkCoastalFromOSM ("island") ("natural") "" none = true := by
  decide

/-- Claim C7 (amended): the only unconditional island rule the shipped
`buildLocationMetadata` applies requires OSM class `place` together with
type `island` or `archipelago`; it then sets `isCoastal = true` regardless
of the remaining signals. `peninsula`, and `island` under any other class,
receive no such treatment. -/
theorem claim_c7_amended (nd : NominatimData) (pinName : String)
    (pinTags : Option (List String)) (hcl : nd.«class» = some ("place"))
    (hty : nd.type = some ("island") ∨ nd.type = some ("archipelago")) :
    (buildLocationMetadata (some nd) pinName pinTags).isCoastal = true := by
  rcases hty with hty | hty <;>
    · simp only [buildLocationMetadata, Option.bind, hcl, hty, Option.getD]
      split_ifs <;> simp

/-- Sample Nominatim record: OSM type `island` with class `place`. -/
def islandPlaceNd : NominatimData := { type := some ("island"), «class» := some ("place") }

/-- Witness for the amended C7 at a concrete island record. -/
theorem claim_c7_amended_witness :
    (buildLocationMetadata (some islandPlaceNd) "" none).isCoastal = true :=
  claim_c7_amended islandPlaceNd ("") none rfl (Or.inl rfl)

/-- Claim C8: every `LocationMetadata` produced by `buildLocationMetadata`
satisfies the invariant that `isCoastal` implies `hasLargeWaterNearby`. -/
theorem claim_c8 (nd : Option NominatimData) (pinName : String)
    (pinTags : Option (List String))
    (h : (buildLocationMetadata nd pinName pinTags).isCoastal = true) :
    (buildLocationMetadata nd pinName pinTags).hasLargeWaterNearby = true := by
  simp only [buildLocationMetadata] at h ⊢
  split_ifs at h ⊢ with hs
  · rfl
  · simp only at h ⊢
    rw [h]
    simp

/-- Witness for C8 at a concrete surf-tagged pin (coastal by tag override). -/
theorem claim_c8_witness :
    (buildLocationMetadata none ("") (some ["surf-spot"])).hasLargeWaterNearby = true :=
  claim_c8 none ("") (some ["surf-spot"]) (by decide)
